import Mathlib

/-!
# Verification of the multi-agent image analysis orchestration core

Shallow embedding of the Python agents in
`src/analysis_agent.py`, `src/coordinator_agent.py`,
`src/model_management_agent.py` and `src/image_processing_agent.py`.

The opaque external calls (the BLIP inference call, image decoding) are
passed in as oracle parameters of type `Except String String` and the
like: `.ok` is the value the call returns, `.error` the message of the
exception it raises.  Streamlit UI calls (`st.info`, `st.success`,
`st.error`, `st.spinner`, `st.toast`) are display-only and have no
effect on the state the claims are about, so they are not modelled.
-/

namespace Prodoc

/-- An analysis-result dictionary as built by `AnalysisAgent.analyze_image`
(src/analysis_agent.py).  The Python dicts carry different key sets on the
success and failure branches; fields absent from a branch are `none`.
Timing and timestamp metadata are not modelled (no claim is about them). -/
structure AnalysisRecord where
  success : Bool
  caption : Option String
  error : Option String
  prompt : Option String
  maxTokens : Option Nat
  deriving Repr, DecidableEq

/-- The failure dict returned by `analyze_image` when the model agent's
`is_loaded` is false (src/analysis_agent.py lines 20-25). -/
def notLoadedRecord : AnalysisRecord :=
  { success := false
    caption := none
    error := some "Model not loaded. Please initialize the model first."
    prompt := none
    maxTokens := none }

/-- The failure dict returned by `analyze_image` when the inference call
raises (src/analysis_agent.py lines 77-82). -/
def analysisFailedRecord (msg : String) : AnalysisRecord :=
  { success := false
    caption := none
    error := some ("Analysis failed: " ++ msg)
    prompt := none
    maxTokens := none }

/-- The synthetic failure dict returned by `analyze_with_multiple_prompts`
when `results` is empty, which happens exactly when `prompts` is empty
(src/analysis_agent.py lines 116-121). -/
def allFailedRecord : AnalysisRecord :=
  { success := false
    caption := none
    error := some "All analysis attempts failed"
    prompt := none
    maxTokens := none }

/-- The state of `AnalysisAgent` together with the `is_loaded` flag of the
`ModelManagementAgent` it holds a reference to: `analysis_history` is the
agent's append-only ledger (src/analysis_agent.py line 12). -/
structure AnalysisAgentState where
  isLoaded : Bool
  history : List AnalysisRecord
  deriving Repr, DecidableEq

/-- `AnalysisAgent.analyze_image` (src/analysis_agent.py lines 14-82).
`infer` is the oracle for the whole guarded body: preparing inputs,
`model.generate` and decoding; `.ok c` means the pipeline produced caption
`c`, `.error e` means some step raised with message `e` (caught by the
`except` at line 76).  The success record is appended to
`analysis_history` (line 72); neither failure branch appends. -/
def analyze_image (st : AnalysisAgentState) (infer : Except String String)
    (prompt : String) (maxTokens : Nat) : AnalysisRecord × AnalysisAgentState :=
  if st.isLoaded = false then
    (notLoadedRecord, st)
  else
    match infer with
    | .ok caption =>
        let r : AnalysisRecord :=
          { success := true
            caption := some caption
            error := none
            prompt := some prompt
            maxTokens := some maxTokens }
        (r, { st with history := st.history ++ [r] })
    | .error e => (analysisFailedRecord e, st)

/-- The `for i, prompt in enumerate(prompts)` loop of
`analyze_with_multiple_prompts` (src/analysis_agent.py lines 100-109):
calls `analyze_image` on every prompt in order, threading the agent state,
and collects the results list.  `inferOf p` is the inference oracle for
the call made with prompt `p`. -/
def runAll (st : AnalysisAgentState) (inferOf : String → Except String String)
    (maxTokens : Nat) : List String → List AnalysisRecord × AnalysisAgentState
  | [] => ([], st)
  | p :: ps =>
      let step := analyze_image st (inferOf p) p maxTokens
      let rest := runAll step.2 inferOf maxTokens ps
      (step.1 :: rest.1, rest.2)

/-- `AnalysisAgent.analyze_with_multiple_prompts`
(src/analysis_agent.py lines 84-121).  Returns the chosen record, the
final agent state, and the number of `analyze_image` calls performed
(one per element of `prompts`: the loop has no early exit).  After the
loop, lines 112-114 scan `results` for the first record with
`success=True` (`List.find?` returns the first match); line 116 falls
back to the last result, or to the synthetic `allFailedRecord` when
`results` is empty. -/
def analyze_with_multiple_prompts (st : AnalysisAgentState)
    (inferOf : String → Except String String)
    (prompts : List String) (maxTokens : Nat) :
    AnalysisRecord × AnalysisAgentState × Nat :=
  let ran := runAll st inferOf maxTokens prompts
  let results := ran.1
  let chosen :=
    match results.find? (fun r => r.success) with
    | some r => r
    | none =>
        match results.getLast? with
        | some r => r
        | none => allFailedRecord
  (chosen, ran.2, results.length)

/-- `AnalysisAgent.get_analysis_history` (src/analysis_agent.py
lines 123-125): `self.analysis_history[-limit:] if self.analysis_history
else []`.  In Python, `xs[-limit:]` with `limit = 0` is `xs[0:]`, the
whole list; with `limit > 0` it is the last `min limit (len xs)`
elements, here `drop (length - limit)` on natural numbers (truncated
subtraction gives the whole list when `limit > length`). -/
def get_analysis_history (history : List AnalysisRecord) (limit : Nat) :
    List AnalysisRecord :=
  if history.isEmpty then []
  else if limit = 0 then history
  else history.drop (history.length - limit)

/-! ## Model management: the `st.cache_resource` memoization layer -/

/-- The value `_load_model_cached` / `_load_processor_cached` return
(src/model_management_agent.py lines 31-49): the `try` body builds the
resource and returns `(resource, None)`; the `except` returns
`(None, str(e))`.  The function itself never raises. -/
structure LoadOutcome where
  resource : Option Nat
  error : Option String
  deriving Repr, DecidableEq

/-- `(None, str(e))` wrapping of the underlying builder: `build` is the
oracle for `from_pretrained(...)` (and `.to(device)`), `.ok r` a built
resource handle, `.error e` a raised exception's message. -/
def load_body (build : Except String Nat) : LoadOutcome :=
  match build with
  | .ok r => { resource := some r, error := none }
  | .error e => { resource := none, error := some e }

/-- Lookup in the `st.cache_resource` store, keyed by the cached
function's argument tuple `(model_id, device)`. -/
def cacheLookup (key : String × String) :
    List ((String × String) × LoadOutcome) → Option LoadOutcome
  | [] => none
  | (k, v) :: rest => if k = key then some v else cacheLookup key rest

/-- `st.cache_resource` applied to `_load_model_cached`
(src/model_management_agent.py lines 41-49): on a cache hit the stored
return value is handed back and the function body does not run; on a miss
the body runs, its return value — success or `(None, error)` alike — is
stored, and handed back.  Returns (outcome, new cache store, whether the
body ran).  `_load_processor_cached` (lines 31-39) has the same shape with
key `(model_id)`; the one definition models both. -/
def load_model_cached (cache : List ((String × String) × LoadOutcome))
    (key : String × String) (build : Except String Nat) :
    LoadOutcome × List ((String × String) × LoadOutcome) × Bool :=
  match cacheLookup key cache with
  | some v => (v, cache, false)
  | none =>
      let v := load_body build
      (v, (key, v) :: cache, true)

/-! ## Coordinator -/

/-- The coordinator's mutable state (src/coordinator_agent.py lines 8-14)
together with the states of the agents it can reach: `agents` is the set
of registered agent names (the dict's values' behavior is supplied by
oracles at each call), `analysis` is the analysis agent's state
(including the model agent's `is_loaded` it reads), `model`/`processor`
the model agent's handles, `cache` the `st.cache_resource` store, and
`lastActivity` an abstract timestamp (`None` initially). -/
structure CoordinatorState where
  agents : List String
  initialized : Bool
  totalOperations : Nat
  lastActivity : Option Nat
  analysis : AnalysisAgentState
  model : Option Nat
  processor : Option Nat
  cache : List ((String × String) × LoadOutcome)
  deriving Repr, DecidableEq

/-- The `required_agents` list of `initialize_system`
(src/coordinator_agent.py line 31). -/
def required_agents : List String :=
  ["model_management", "image_processing", "analysis", "ui"]

/-- `CoordinatorAgent.initialize_system` (src/coordinator_agent.py
lines 25-54).  `modelInit` is the oracle for
`model_agent.initialize_model()` (its `(success, error)` pair).  Returns
(the bool result, the missing-agent names reported at line 35, the new
state, whether `initialize_model` was invoked).  When some required agent
is missing the function reports the missing names and returns `False`
before touching the model agent; otherwise it runs `initialize_model`
and on success sets `initialized` and stamps `last_activity` (`now`). -/
def initialize_system (cs : CoordinatorState) (now : Nat)
    (modelInit : Bool × Option String) :
    Bool × List String × CoordinatorState × Bool :=
  let missing := required_agents.filter (fun a => a ∉ cs.agents)
  if missing.isEmpty then
    if modelInit.1 then
      (true, [],
        { cs with initialized := true, lastActivity := some now }, true)
    else
      (false, [], cs, true)
  else
    (false, missing, cs, false)

/-- The failure dict of `process_image_analysis` when the system is not
initialized (src/coordinator_agent.py lines 75-79). -/
def notInitializedRecord : AnalysisRecord :=
  { success := false
    caption := none
    error := some "System not initialized"
    prompt := none
    maxTokens := none }

/-- The failure dict of the `except` branch of `process_image_analysis`
(src/coordinator_agent.py lines 110-114). -/
def workflowFailedRecord (msg : String) : AnalysisRecord :=
  { success := false
    caption := none
    error := some ("Workflow coordination failed: " ++ msg)
    prompt := none
    maxTokens := none }

/-- `CoordinatorAgent.process_image_analysis` (src/coordinator_agent.py
lines 56-114).  The first statement of the `try` block increments
`total_operations` (line 70); everything else comes after.  If the
system is not initialized the early return at line 75 fires.
`preprocess_image` (step 2) catches its own exceptions and always
returns an image, so the only way into the coordinator's `except` branch
is a missing `agents` entry (a `KeyError` at line 82 or 86); `infer` is
the oracle for the analysis agent's inference pipeline as in
`analyze_image`.  On the normal path `last_activity` is stamped
(line 94) after the analysis. -/
def process_image_analysis (cs : CoordinatorState) (now : Nat)
    (infer : Except String String) (prompt : String) (maxTokens : Nat) :
    AnalysisRecord × CoordinatorState :=
  let cs1 := { cs with totalOperations := cs.totalOperations + 1 }
  if cs1.initialized = false then
    (notInitializedRecord, cs1)
  else if "image_processing" ∈ cs1.agents ∧ "analysis" ∈ cs1.agents then
    let step := analyze_image cs1.analysis infer prompt maxTokens
    (step.1, { cs1 with analysis := step.2, lastActivity := some now })
  else
    (workflowFailedRecord "KeyError", cs1)

/-- A sequence of `process_image_analysis` calls: each request carries
its timestamp, inference oracle, prompt and token budget. -/
def runWorkflows (cs : CoordinatorState) :
    List (Nat × Except String String × String × Nat) → CoordinatorState
  | [] => cs
  | (now, infer, p, t) :: rest =>
      runWorkflows (process_image_analysis cs now infer p t).2 rest

/-- `ModelManagementAgent.cleanup_resources`
(src/model_management_agent.py lines 107-131): drops the model and
processor handles, clears the whole `st.cache_resource` store, and
resets `is_loaded`.  Every statement in its `try` body either cannot
raise or is a guarded deletion, so the `except` branch is not modelled. -/
def cleanup_resources (cs : CoordinatorState) : CoordinatorState :=
  { cs with
      model := none
      processor := none
      cache := []
      analysis := { cs.analysis with isLoaded := false } }

/-- `CoordinatorAgent.cleanup_system` (src/coordinator_agent.py
lines 188-208): calls `cleanup_resources` when a `model_management`
agent is registered, clears the analysis history when an `analysis`
agent is registered (`clear_history`, src/analysis_agent.py
lines 127-130), then resets `initialized` and `total_operations`.
`last_activity` is not touched.  The called cleanups catch their own
exceptions, so the outer `except` branch is unreachable. -/
def cleanup_system (cs : CoordinatorState) : CoordinatorState :=
  let cs1 := if "model_management" ∈ cs.agents then cleanup_resources cs else cs
  let cs2 :=
    if "analysis" ∈ cs1.agents then
      { cs1 with analysis := { cs1.analysis with history := [] } }
    else cs1
  { cs2 with initialized := false, totalOperations := 0 }

/-! ## Health check -/

/-- The observable behavior of one registered agent under the probing
done by `run_health_check` (src/coordinator_agent.py lines 149-175).
The probe is duck-typed: `hasattr(agent, 'get_model_status')` is tried
first, then `hasattr(agent, 'get_statistics')`, else the agent is plain.
`statusLoaded b` — the agent has `get_model_status` and its dict's
`is_loaded` is `b`; `statusNoField` — it has `get_model_status` but the
dict lacks the key (`.get('is_loaded', True)` defaults to `True`);
`stats m` — it has `get_statistics`, returning a dict with a `'message'`
key (`some m`) or without (`none`); `plainAgent` — neither attribute;
`raises m` — the probed call raises with message `m`. -/
inductive ProbeBehavior where
  | statusLoaded (isLoaded : Bool)
  | statusNoField
  | stats (message : Option String)
  | plainAgent
  | raises (msg : String)
  deriving Repr, DecidableEq

/-- The per-agent `agent_health` dict (src/coordinator_agent.py
lines 150-175).  Every branch overwrites the initial `'unknown'`. -/
structure AgentHealth where
  status : String
  issues : List String
  deriving Repr, DecidableEq

/-- The body of the `for agent_name, agent in self.agents.items()` loop
that fills `agent_health` (src/coordinator_agent.py lines 150-175). -/
def probe_health : ProbeBehavior → AgentHealth
  | .statusLoaded false => { status := "warning", issues := ["Model not loaded"] }
  | .statusLoaded true => { status := "healthy", issues := [] }
  | .statusNoField => { status := "healthy", issues := [] }
  | .stats (some m) => { status := "info", issues := [m] }
  | .stats none => { status := "healthy", issues := [] }
  | .plainAgent => { status := "healthy", issues := [] }
  | .raises m => { status := "error", issues := ["Exception: " ++ m] }

/-- The `health_report` dict (src/coordinator_agent.py lines 142-147). -/
structure HealthReport where
  overall_health : String
  issues : List String
  warnings : List String
  agent_health : List (String × AgentHealth)
  deriving Repr, DecidableEq

/-- One iteration of the loop of `run_health_check`
(src/coordinator_agent.py lines 149-184): record the agent's entry, then
update the aggregate — `error` flips `overall_health` to `unhealthy` and
appends to `issues`; `warning` appends to `warnings` only. -/
def healthStep (rep : HealthReport) (agent : String × ProbeBehavior) :
    HealthReport :=
  let ah := probe_health agent.2
  let rep1 := { rep with agent_health := rep.agent_health ++ [(agent.1, ah)] }
  if ah.status = "error" then
    { rep1 with
        overall_health := "unhealthy"
        issues := rep1.issues ++
          [agent.1 ++ ": " ++ String.intercalate ", " ah.issues] }
  else if ah.status = "warning" then
    { rep1 with
        warnings := rep1.warnings ++
          [agent.1 ++ ": " ++ String.intercalate ", " ah.issues] }
  else rep1

/-- `CoordinatorAgent.run_health_check` (src/coordinator_agent.py
lines 140-186): starts from `{'overall_health': 'healthy', ...}` and
folds `healthStep` over the registered agents (name and probe
behavior). -/
def run_health_check (agents : List (String × ProbeBehavior)) : HealthReport :=
  agents.foldl healthStep
    { overall_health := "healthy", issues := [], warnings := [], agent_health := [] }

/-! ## Image preprocessing -/

/-- A PIL image as far as `preprocess_image` observes it: its mode and
pixel dimensions (`image.size = (width, height)`). -/
structure Img where
  mode : String
  width : Nat
  height : Nat
  deriving Repr, DecidableEq

/-- `ImageProcessingAgent.preprocess_image` on its normal path
(src/image_processing_agent.py lines 85-104): convert to RGB when not
already, and when `max(image.size) > 1024` resize both dimensions by
`ratio = 1024 / max(image.size)` with `int(...)` truncation.  The
Python float expression `int(dim * (1024 / m))` is modelled by the exact
truncated quotient `dim * 1024 / m` on naturals. -/
def preprocess_image (img : Img) : Img :=
  let img1 := if img.mode ≠ "RGB" then { img with mode := "RGB" } else img
  let maxDimension := 1024
  let m := max img1.width img1.height
  if maxDimension < m then
    { img1 with
        width := img1.width * maxDimension / m
        height := img1.height * maxDimension / m }
  else img1

/-! ## Concrete fixtures used by counterexamples and witnesses -/

/-- A sample successful analysis record. -/
def sampleRecord : AnalysisRecord :=
  { success := true
    caption := some "a cat"
    error := none
    prompt := some "Describe the image"
    maxTokens := some 50 }

/-- A sample inference oracle: the call made with prompt `"p1"` raises,
every other prompt yields a caption. -/
def sampleInfer : String → Except String String := fun p =>
  if p = "p1" then Except.error "fail1" else Except.ok ("caption for " ++ p)

/-- A coordinator state in which only the `model_management` agent is
registered. -/
def onlyModelState : CoordinatorState :=
  { agents := ["model_management"]
    initialized := false
    totalOperations := 0
    lastActivity := none
    analysis := { isLoaded := false, history := [] }
    model := none
    processor := none
    cache := [] }

/-- A fully registered, initialized coordinator state with a loaded model
and an empty history. -/
def readyState : CoordinatorState :=
  { agents := ["model_management", "image_processing", "analysis", "ui"]
    initialized := true
    totalOperations := 0
    lastActivity := none
    analysis := { isLoaded := true, history := [] }
    model := some 1
    processor := some 2
    cache := [] }

/-! ## Theorems -/

/-- C7: `RunMultiPrompt` applied to an empty prompt sequence returns the
synthetic failure record — the dict with error `"All analysis attempts
failed"` built at src/analysis_agent.py lines 116-121, which is produced
exactly in this case and is the code's realization of the spec's
`errorKind=NoPromptsProvided` — without invoking `Run` even once (the
call count is 0) and without touching the agent state. -/
theorem multi_prompt_empty_returns_synthetic_failure
    (st : AnalysisAgentState) (inferOf : String → Except String String)
    (maxTokens : Nat) :
    analyze_with_multiple_prompts st inferOf [] maxTokens =
      (allFailedRecord, st, 0) := rfl

/-- Case characterization of `process_image_analysis`: the
system-not-initialized early return (src/coordinator_agent.py line 75). -/
theorem process_image_analysis_not_init (cs : CoordinatorState) (now : Nat)
    (infer : Except String String) (prompt : String) (maxTokens : Nat)
    (h : cs.initialized = false) :
    process_image_analysis cs now infer prompt maxTokens =
      (notInitializedRecord,
        { cs with totalOperations := cs.totalOperations + 1 }) := by
  simp [process_image_analysis, h]

/-- Case characterization of `process_image_analysis`: the normal path
through preprocessing and analysis (src/coordinator_agent.py
lines 81-107). -/
theorem process_image_analysis_ready (cs : CoordinatorState) (now : Nat)
    (infer : Except String String) (prompt : String) (maxTokens : Nat)
    (h : cs.initialized = true)
    (hmem : "image_processing" ∈ cs.agents ∧ "analysis" ∈ cs.agents) :
    process_image_analysis cs now infer prompt maxTokens =
      ((analyze_image cs.analysis infer prompt maxTokens).1,
        { cs with
            totalOperations := cs.totalOperations + 1
            lastActivity := some now
            analysis := (analyze_image cs.analysis infer prompt maxTokens).2 }) := by
  simp [process_image_analysis, h, hmem]

/-- Case characterization of `process_image_analysis`: the `except`
branch reached by a missing agent entry (src/coordinator_agent.py
lines 109-114). -/
theorem process_image_analysis_missing (cs : CoordinatorState) (now : Nat)
    (infer : Except String String) (prompt : String) (maxTokens : Nat)
    (h : cs.initialized = true)
    (hmem : ¬("image_processing" ∈ cs.agents ∧ "analysis" ∈ cs.agents)) :
    process_image_analysis cs now infer prompt maxTokens =
      (workflowFailedRecord "KeyError",
        { cs with totalOperations := cs.totalOperations + 1 }) := by
  simp [process_image_analysis, h, hmem]

/-- C4: every invocation of `process_image_analysis` increments
`total_operations` by exactly 1 — the increment is the first statement of
the `try` block, so it happens on the success path, on the
system-not-initialized path and on the exception path alike — and
consequently `total_operations` is monotonically non-decreasing across
any sequence of workflow invocations. -/
theorem workflow_increments_total_operations :
    (∀ (cs : CoordinatorState) (now : Nat) (infer : Except String String)
      (prompt : String) (maxTokens : Nat),
      (process_image_analysis cs now infer prompt maxTokens).2.totalOperations =
        cs.totalOperations + 1) ∧
    (∀ (cs : CoordinatorState)
      (reqs : List (Nat × Except String String × String × Nat)),
      cs.totalOperations ≤ (runWorkflows cs reqs).totalOperations) := by
  have step : ∀ (cs : CoordinatorState) (now : Nat) (infer : Except String String)
      (prompt : String) (maxTokens : Nat),
      (process_image_analysis cs now infer prompt maxTokens).2.totalOperations =
        cs.totalOperations + 1 := by
    intro cs now infer prompt maxTokens
    cases hinit : cs.initialized with
    | false =>
        rw [process_image_analysis_not_init cs now infer prompt maxTokens hinit]
    | true =>
        by_cases hmem : "image_processing" ∈ cs.agents ∧ "analysis" ∈ cs.agents
        · rw [process_image_analysis_ready cs now infer prompt maxTokens hinit hmem]
        · rw [process_image_analysis_missing cs now infer prompt maxTokens hinit hmem]
  refine ⟨step, ?_⟩
  intro cs reqs
  induction reqs generalizing cs with
  | nil => exact le_rfl
  | cons r rest ih =>
      obtain ⟨now, infer, p, t⟩ := r
      refine le_trans ?_ (ih (process_image_analysis cs now infer p t).2)
      rw [step cs now infer p t]
      exact Nat.le_succ _

/-- C2 (counterexample): an analysis record with `success=False` produced
by a workflow whose preprocessing completed — here the inference call
raises `"boom"` on a fully initialized system — is NOT appended to the
history ledger: the ledger stays empty, contradicting the claim that
inference-failure records are appended. -/
theorem failed_record_not_appended_cex :
    (process_image_analysis readyState 7 (Except.error "boom")
        "Describe the image" 50).1.success = false ∧
    (process_image_analysis readyState 7 (Except.error "boom")
        "Describe the image" 50).1.error = some "Analysis failed: boom" ∧
    (process_image_analysis readyState 7 (Except.error "boom")
        "Describe the image" 50).2.analysis.history = [] := by
  refine ⟨rfl, rfl, rfl⟩

/-- C2 (amended): the history ledger gains the produced record exactly
when that record has `success=true` — successful records are appended,
while records with `success=false` (model not loaded, or the inference
call raising) are returned to the caller but never appended; in
particular the ledger never contains a record for a workflow that did
not complete (the only append site is the success path of
`analyze_image`, after preprocessing). -/
theorem ledger_appends_iff_success :
    (∀ (st : AnalysisAgentState) (infer : Except String String)
      (prompt : String) (maxTokens : Nat),
      (analyze_image st infer prompt maxTokens).2.history =
        if (analyze_image st infer prompt maxTokens).1.success = true then
          st.history ++ [(analyze_image st infer prompt maxTokens).1]
        else st.history) ∧
    (∀ (cs : CoordinatorState) (now : Nat) (infer : Except String String)
      (prompt : String) (maxTokens : Nat),
      (process_image_analysis cs now infer prompt maxTokens).2.analysis.history =
        if (process_image_analysis cs now infer prompt maxTokens).1.success = true then
          cs.analysis.history ++ [(process_image_analysis cs now infer prompt maxTokens).1]
        else cs.analysis.history) := by
  have base : ∀ (st : AnalysisAgentState) (infer : Except String String)
      (prompt : String) (maxTokens : Nat),
      (analyze_image st infer prompt maxTokens).2.history =
        if (analyze_image st infer prompt maxTokens).1.success = true then
          st.history ++ [(analyze_image st infer prompt maxTokens).1]
        else st.history := by
    intro st infer prompt maxTokens
    unfold analyze_image
    split
    · simp [notLoadedRecord]
    · cases infer with
      | ok c => simp
      | error e => simp [analysisFailedRecord]
  refine ⟨base, ?_⟩
  intro cs now infer prompt maxTokens
  cases hinit : cs.initialized with
  | false =>
      rw [process_image_analysis_not_init cs now infer prompt maxTokens hinit]
      simp [notInitializedRecord]
  | true =>
      by_cases hmem : "image_processing" ∈ cs.agents ∧ "analysis" ∈ cs.agents
      · rw [process_image_analysis_ready cs now infer prompt maxTokens hinit hmem]
        simpa using base cs.analysis infer prompt maxTokens
      · rw [process_image_analysis_missing cs now infer prompt maxTokens hinit hmem]
        simp [workflowFailedRecord]

/-- C3 (counterexample): a failed construction IS memoized by
`st.cache_resource`.  Starting from an empty cache, a first call whose
builder fails with `"download failed"` stores the `(None, error)` tuple;
the next call for the same key does NOT invoke the factory (the ran-flag
is `false`) and returns the memoized failure even though its builder
would now succeed — contradicting the claim that the factory is invoked
again. -/
theorem failed_load_memoized_cex :
    (load_model_cached
      (load_model_cached [] ("Salesforce/blip-image-captioning-large", "cpu")
        (Except.error "download failed")).2.1
      ("Salesforce/blip-image-captioning-large", "cpu")
      (Except.ok 7)).2.2 = false ∧
    (load_model_cached
      (load_model_cached [] ("Salesforce/blip-image-captioning-large", "cpu")
        (Except.error "download failed")).2.1
      ("Salesforce/blip-image-captioning-large", "cpu")
      (Except.ok 7)).1 = { resource := none, error := some "download failed" } := by
  refine ⟨rfl, rfl⟩

/-- C3 (amended): after any `GetOrCreate` call for a key — whether the
factory succeeded or failed — the next call for the same key does not
invoke the factory and returns the memoized outcome: failures are
memoized, and a later call can succeed only after an explicit
invalidation (`cleanup_resources` clears the store, after which the
factory runs again). -/
theorem failed_load_memoized
    (cache : List ((String × String) × LoadOutcome)) (key : String × String)
    (b1 b2 : Except String Nat) :
    load_model_cached (load_model_cached cache key b1).2.1 key b2 =
      ((load_model_cached cache key b1).1,
        (load_model_cached cache key b1).2.1, false) ∧
    (load_model_cached [] key b2).2.2 = true := by
  constructor
  · unfold load_model_cached
    cases h : cacheLookup key cache with
    | some v => simp [h]
    | none => simp [h, cacheLookup]
  · rfl

/-- C9: `cleanup_system` resets `initialized` to `false` and
`total_operations` to `0` while leaving `last_activity` unchanged, and it
is idempotent: a second call leaves exactly the state of the first (and,
since every exception inside is caught by the callees, the second call
never raises). -/
theorem cleanup_resets_and_idempotent (cs : CoordinatorState) :
    (cleanup_system cs).initialized = false ∧
    (cleanup_system cs).totalOperations = 0 ∧
    (cleanup_system cs).lastActivity = cs.lastActivity ∧
    cleanup_system (cleanup_system cs) = cleanup_system cs := by
  by_cases h1 : "model_management" ∈ cs.agents <;>
    by_cases h2 : "analysis" ∈ cs.agents <;>
      simp [cleanup_system, cleanup_resources, h1, h2]

/-- C10: on its normal path, `preprocess_image` returns an image in RGB
mode whose larger dimension is at most 1024; when the input already fits
the dimensions are unchanged, and when it exceeds 1024 both dimensions
are scaled by the common ratio `1024 / max(size)` (with the `int(...)`
truncation the code applies), preserving the aspect ratio up to that
truncation. -/
theorem preprocess_bounds_and_mode (img : Img) :
    (preprocess_image img).mode = "RGB" ∧
    max (preprocess_image img).width (preprocess_image img).height ≤ 1024 ∧
    (max img.width img.height ≤ 1024 →
      (preprocess_image img).width = img.width ∧
      (preprocess_image img).height = img.height) ∧
    (1024 < max img.width img.height →
      (preprocess_image img).width =
        img.width * 1024 / max img.width img.height ∧
      (preprocess_image img).height =
        img.height * 1024 / max img.width img.height) := by
  have hm : 0 < max img.width img.height ∨ max img.width img.height ≤ 1024 := by
    omega
  unfold preprocess_image
  split
  case isTrue hmode =>
    simp only
    split
    case isTrue hbig =>
      have hpos : 0 < max img.width img.height := by omega
      have hw : img.width * 1024 / max img.width img.height ≤ 1024 := by
        calc img.width * 1024 / max img.width img.height
            ≤ max img.width img.height * 1024 / max img.width img.height :=
              Nat.div_le_div_right
                (Nat.mul_le_mul_right 1024 (le_max_left _ _))
          _ = 1024 := Nat.mul_div_cancel_left 1024 hpos
      have hh : img.height * 1024 / max img.width img.height ≤ 1024 := by
        calc img.height * 1024 / max img.width img.height
            ≤ max img.width img.height * 1024 / max img.width img.height :=
              Nat.div_le_div_right
                (Nat.mul_le_mul_right 1024 (le_max_right _ _))
          _ = 1024 := Nat.mul_div_cancel_left 1024 hpos
      refine ⟨rfl, ?_, ?_, ?_⟩
      · simpa using max_le hw hh
      · intro hsmall; omega
      · intro _; exact ⟨rfl, rfl⟩
    case isFalse hsmall =>
      refine ⟨rfl, ?_, fun _ => ⟨rfl, rfl⟩, fun hbig => absurd hbig hsmall⟩
      simpa using le_of_not_lt hsmall
  case isFalse hmode =>
    have hrgb : img.mode = "RGB" := by
      by_contra hne; exact hmode hne
    simp only
    split
    case isTrue hbig =>
      have hpos : 0 < max img.width img.height := by omega
      have hw : img.width * 1024 / max img.width img.height ≤ 1024 := by
        calc img.width * 1024 / max img.width img.height
            ≤ max img.width img.height * 1024 / max img.width img.height :=
              Nat.div_le_div_right
                (Nat.mul_le_mul_right 1024 (le_max_left _ _))
          _ = 1024 := Nat.mul_div_cancel_left 1024 hpos
      have hh : img.height * 1024 / max img.width img.height ≤ 1024 := by
        calc img.height * 1024 / max img.width img.height
            ≤ max img.width img.height * 1024 / max img.width img.height :=
              Nat.div_le_div_right
                (Nat.mul_le_mul_right 1024 (le_max_right _ _))
          _ = 1024 := Nat.mul_div_cancel_left 1024 hpos
      refine ⟨hrgb, ?_, ?_, ?_⟩
      · simpa using max_le hw hh
      · intro hsmall; omega
      · intro _; exact ⟨rfl, rfl⟩
    case isFalse hsmall =>
      refine ⟨hrgb, ?_, fun _ => ⟨rfl, rfl⟩, fun hbig => absurd hbig hsmall⟩
      simpa using le_of_not_lt hsmall

/-- C10 (witness): a 2048x1000 non-RGB input exceeds the 1024 bound and
is resized to 1024x500 in RGB mode. -/
theorem preprocess_bounds_and_mode_witness :
    1024 < max (Img.mk "L" 2048 1000).width (Img.mk "L" 2048 1000).height ∧
    (preprocess_image (Img.mk "L" 2048 1000)).mode = "RGB" ∧
    (preprocess_image (Img.mk "L" 2048 1000)).width = 1024 ∧
    (preprocess_image (Img.mk "L" 2048 1000)).height = 500 := by
  have h := preprocess_bounds_and_mode (Img.mk "L" 2048 1000)
  have hbig : 1024 < max (Img.mk "L" 2048 1000).width (Img.mk "L" 2048 1000).height := by
    decide
  obtain ⟨hmode, -, -, hres⟩ := h
  obtain ⟨hw, hh⟩ := hres hbig
  exact ⟨hbig, hmode, by rw [hw]; decide, by rw [hh]; decide⟩

/-- The results list of the multi-prompt loop has one entry per prompt:
the `for` loop calls `analyze_image` once for every prompt. -/
theorem runAll_length (inferOf : String → Except String String) (maxTokens : Nat) :
    ∀ (prompts : List String) (st : AnalysisAgentState),
      ((runAll st inferOf maxTokens prompts).1).length = prompts.length := by
  intro prompts
  induction prompts with
  | nil => intro st; rfl
  | cons p ps ih => intro st; simp [runAll, ih]

/-- `List.find?` returns the first element satisfying the test: the
witnessing index has no earlier index satisfying it. -/
theorem find?_first {α : Type} (p : α → Bool) :
    ∀ (l : List α) (r : α), l.find? p = some r →
      ∃ i, ∃ hi : i < l.length, l.get ⟨i, hi⟩ = r ∧ p r = true ∧
        ∀ j, ∀ hj : j < l.length, j < i → p (l.get ⟨j, hj⟩) = false := by
  intro l
  induction l with
  | nil => intro r h; simp at h
  | cons a t ih =>
      intro r h
      by_cases hpa : p a = true
      · rw [List.find?_cons_of_pos t hpa] at h
        obtain rfl : a = r := Option.some.inj h
        exact ⟨0, Nat.succ_pos _, rfl, hpa,
          fun j hj hj0 => absurd hj0 (Nat.not_lt_zero j)⟩
      · rw [List.find?_cons_of_neg t hpa] at h
        obtain ⟨i, hi, hget, hpr, hfirst⟩ := ih r h
        refine ⟨i + 1, Nat.succ_lt_succ hi, hget, hpr, ?_⟩
        intro j hj hjlt
        cases j with
        | zero =>
            simp only [Bool.not_eq_true] at hpa
            exact hpa
        | succ k =>
            exact hfirst k (Nat.lt_of_succ_lt_succ hj) (Nat.lt_of_succ_lt_succ hjlt)

/-- C1 (counterexample): with three prompts where the first fails and
the second succeeds, the loop still performs a `Run` call for the third
prompt — the call count is 3, not 2 — even though the record returned is
the (first successful) one for `"p2"`.  This contradicts the claim that
no `Run` call happens for any prompt after the first successful one. -/
theorem multi_prompt_no_early_exit_cex :
    (analyze_with_multiple_prompts ⟨true, []⟩ sampleInfer
      ["p1", "p2", "p3"] 50).1.prompt = some "p2" ∧
    (analyze_with_multiple_prompts ⟨true, []⟩ sampleInfer
      ["p1", "p2", "p3"] 50).2.2 = 3 ∧
    ¬ (analyze_with_multiple_prompts ⟨true, []⟩ sampleInfer
      ["p1", "p2", "p3"] 50).2.2 ≤ 2 :=
  ⟨rfl, rfl, by decide⟩

/-- C1 (amended): for a non-empty prompt sequence, `RunMultiPrompt`
calls `Run` once per prompt, in order, with no early exit (the call
count equals the number of prompts even when an early prompt succeeds);
it then returns the first record with `success=true` when one exists —
the returned record sits at an index before which every record failed —
and the last attempted record when none succeeds. -/
theorem multi_prompt_tries_all_in_order
    (st : AnalysisAgentState) (inferOf : String → Except String String)
    (prompts : List String) (maxTokens : Nat) (hne : prompts ≠ []) :
    (analyze_with_multiple_prompts st inferOf prompts maxTokens).2.2 =
      prompts.length ∧
    ((∃ r ∈ (runAll st inferOf maxTokens prompts).1, r.success = true) →
      ∃ i, ∃ hi : i < ((runAll st inferOf maxTokens prompts).1).length,
        (analyze_with_multiple_prompts st inferOf prompts maxTokens).1 =
          ((runAll st inferOf maxTokens prompts).1).get ⟨i, hi⟩ ∧
        (((runAll st inferOf maxTokens prompts).1).get ⟨i, hi⟩).success = true ∧
        ∀ j, ∀ hj : j < ((runAll st inferOf maxTokens prompts).1).length,
          j < i →
          (((runAll st inferOf maxTokens prompts).1).get ⟨j, hj⟩).success = false) ∧
    ((∀ r ∈ (runAll st inferOf maxTokens prompts).1, r.success = false) →
      ((runAll st inferOf maxTokens prompts).1).getLast? =
        some (analyze_with_multiple_prompts st inferOf prompts maxTokens).1) := by
  have hlen : ((runAll st inferOf maxTokens prompts).1).length = prompts.length :=
    runAll_length inferOf maxTokens prompts st
  refine ⟨by simpa [analyze_with_multiple_prompts] using hlen, ?_, ?_⟩
  · intro hex
    have hsome : (((runAll st inferOf maxTokens prompts).1).find?
        (fun r => r.success)).isSome := by
      rw [List.find?_isSome]
      simpa using hex
    obtain ⟨r, hfind⟩ := Option.isSome_iff_exists.mp hsome
    obtain ⟨i, hi, hget, hpr, hfirst⟩ :=
      find?_first (fun r => r.success) _ r hfind
    refine ⟨i, hi, ?_, by rw [hget]; exact hpr, hfirst⟩
    rw [hget]
    simp [analyze_with_multiple_prompts, hfind]
  · intro hall
    have hnone : ((runAll st inferOf maxTokens prompts).1).find?
        (fun r => r.success) = none := by
      rw [List.find?_eq_none]
      intro x hx
      simp [hall x hx]
    have hne' : (runAll st inferOf maxTokens prompts).1 ≠ [] := by
      intro hnil
      rw [hnil] at hlen
      exact hne (List.length_eq_zero.mp hlen.symm)
    cases hlast : ((runAll st inferOf maxTokens prompts).1).getLast? with
    | none => exact absurd (List.getLast?_eq_none_iff.mp hlast) hne'
    | some r =>
        simp [analyze_with_multiple_prompts, hnone, hlast]

/-- C1 (witness): a two-prompt run where the first prompt fails performs
exactly two `Run` calls. -/
theorem multi_prompt_tries_all_in_order_witness :
    (["p1", "p2"] : List String) ≠ [] ∧
    (analyze_with_multiple_prompts ⟨true, []⟩ sampleInfer
      ["p1", "p2"] 50).2.2 = 2 :=
  ⟨by decide,
    (multi_prompt_tries_all_in_order ⟨true, []⟩ sampleInfer
      ["p1", "p2"] 50 (by decide)).1⟩

/-- C5 (counterexample): `Tail(0)` on a one-record ledger returns the
whole ledger, not the empty sequence: Python's `list[-0:]` slice is
`list[0:]`.  This contradicts the claim that `Tail(0)` is empty. -/
theorem tail_zero_not_empty_cex :
    get_analysis_history [sampleRecord] 0 = [sampleRecord] ∧
    get_analysis_history [sampleRecord] 0 ≠ [] :=
  ⟨rfl, by decide⟩

/-- C5 (amended): on an empty ledger `Tail` returns the empty sequence;
on a non-empty ledger `Tail(0)` returns ALL stored records (it behaves
like `Tail(k)` for `k > length`, because `list[-0:]` is the whole list);
`Tail(k)` for `k ≥ length` returns all records in insertion order, and
for `0 < k ≤ length` it returns the `k` most recent records — a suffix
of the ledger of length exactly `k`. -/
theorem tail_behavior (history : List AnalysisRecord) (k : Nat) :
    (get_analysis_history [] k = []) ∧
    (history ≠ [] → get_analysis_history history 0 = history) ∧
    (history.length ≤ k → get_analysis_history history k = history) ∧
    (0 < k → k ≤ history.length →
      (get_analysis_history history k).length = k ∧
      (get_analysis_history history k).IsSuffix history) := by
  refine ⟨by simp [get_analysis_history], ?_, ?_, ?_⟩
  · intro hne
    simp [get_analysis_history, hne]
  · intro hk
    by_cases hnil : history = []
    · simp [get_analysis_history, hnil]
    · by_cases hk0 : k = 0
      · subst hk0
        have : history.length = 0 := Nat.le_zero.mp hk
        exact absurd (List.length_eq_zero.mp this) hnil
      · have hsub : history.length - k = 0 := Nat.sub_eq_zero_of_le hk
        simp [get_analysis_history, hnil, hk0, hsub]
  · intro hk0 hk1
    have hnil : history ≠ [] := by
      intro h
      rw [h] at hk1
      simp at hk1
      omega
    have hk0' : k ≠ 0 := Nat.pos_iff_ne_zero.mp hk0
    constructor
    · simp [get_analysis_history, hnil, hk0', List.length_drop]
      omega
    · simp only [get_analysis_history, hnil, hk0', List.isEmpty_eq_true,
        if_false, ite_false]
      exact List.drop_suffix _ _

/-- C5 (witness): on the two-record ledger, `Tail(0)` returns both
records and `Tail(1)` returns exactly one. -/
theorem tail_behavior_witness :
    ([sampleRecord, notLoadedRecord] : List AnalysisRecord) ≠ [] ∧
    get_analysis_history [sampleRecord, notLoadedRecord] 0 =
      [sampleRecord, notLoadedRecord] ∧
    (get_analysis_history [sampleRecord, notLoadedRecord] 1).length = 1 :=
  ⟨by decide,
    (tail_behavior [sampleRecord, notLoadedRecord] 0).2.1 (by decide),
    ((tail_behavior [sampleRecord, notLoadedRecord] 1).2.2.2
      (by decide) (by decide)).1⟩

/-- C6 (counterexample): registering only the resource manager
(`model_management`) makes `initialize_system` report THREE missing keys
— `image_processing`, `analysis` and `ui` — not the two the claim
states: the code's required set also contains the `ui` agent. -/
theorem missing_agents_three_not_two_cex :
    (initialize_system onlyModelState 0 (true, none)).2.1 =
      ["image_processing", "analysis", "ui"] ∧
    (initialize_system onlyModelState 0 (true, none)).2.1.length ≠ 2 ∧
    (initialize_system onlyModelState 0 (true, none)).1 = false :=
  ⟨rfl, by decide, rfl⟩

/-- C6 (amended): the required set has FOUR keys (`model_management`,
`image_processing`, `analysis`, `ui`).  Whenever some required key is
absent, `initialize_system` returns false, reports exactly the absent
keys by name, does not invoke the resource manager's initialization, and
leaves the state unchanged; registering only the resource manager
reports the three other keys missing. -/
theorem init_reports_missing_agents (cs : CoordinatorState) (now : Nat)
    (modelInit : Bool × Option String)
    (h : ∃ a ∈ required_agents, a ∉ cs.agents) :
    (initialize_system cs now modelInit).1 = false ∧
    (initialize_system cs now modelInit).2.1 =
      required_agents.filter (fun a => a ∉ cs.agents) ∧
    (initialize_system cs now modelInit).2.2.2 = false ∧
    (initialize_system cs now modelInit).2.2.1 = cs := by
  have hne : (required_agents.filter (fun a => a ∉ cs.agents)).isEmpty = false := by
    obtain ⟨a, hmem, hnot⟩ := h
    have hin : a ∈ required_agents.filter (fun a => a ∉ cs.agents) := by
      simp [List.mem_filter, hmem, hnot]
    cases hf : required_agents.filter (fun a => a ∉ cs.agents) with
    | nil => rw [hf] at hin; simp at hin
    | cons b t => rfl
  simp only [initialize_system]
  simp only [hne]
  simp

/-- C6 (witness): with only `model_management` registered, initialization
fails and the resource manager's `initialize_model` is not invoked. -/
theorem init_reports_missing_agents_witness :
    (∃ a ∈ required_agents, a ∉ onlyModelState.agents) ∧
    (initialize_system onlyModelState 0 (true, none)).1 = false ∧
    (initialize_system onlyModelState 0 (true, none)).2.2.2 = false :=
  ⟨by decide,
    (init_reports_missing_agents onlyModelState 0 (true, none) (by decide)).1,
    (init_reports_missing_agents onlyModelState 0 (true, none) (by decide)).2.2.1⟩

/-- One loop iteration of the health check changes `overall_health` to
`"unhealthy"` exactly when the probed agent's entry is an error;
otherwise it keeps the accumulator's value. -/
theorem healthStep_overall (rep : HealthReport) (a : String × ProbeBehavior) :
    (healthStep rep a).overall_health =
      if (probe_health a.2).status = "error" then "unhealthy"
      else rep.overall_health := by
  by_cases h1 : (probe_health a.2).status = "error"
  · simp [healthStep, h1]
  · by_cases h2 : (probe_health a.2).status = "warning"
    · simp [healthStep, h1, h2]
    · simp [healthStep, h1, h2]

/-- One loop iteration appends the probed agent's entry to
`agent_health`. -/
theorem healthStep_agent_health (rep : HealthReport) (a : String × ProbeBehavior) :
    (healthStep rep a).agent_health =
      rep.agent_health ++ [(a.1, probe_health a.2)] := by
  by_cases h1 : (probe_health a.2).status = "error"
  · simp [healthStep, h1]
  · by_cases h2 : (probe_health a.2).status = "warning"
    · simp [healthStep, h1, h2]
    · simp [healthStep, h1, h2]

/-- Folding the health-check loop collects one entry per registered
agent, in registration order. -/
theorem foldl_health_agent_health (agents : List (String × ProbeBehavior)) :
    ∀ rep : HealthReport,
      (agents.foldl healthStep rep).agent_health =
        rep.agent_health ++ agents.map (fun a => (a.1, probe_health a.2)) := by
  induction agents with
  | nil => intro rep; simp
  | cons a t ih =>
      intro rep
      rw [List.foldl_cons, ih, healthStep_agent_health]
      simp

/-- Folding the health-check loop yields `overall_health = "unhealthy"`
exactly when the accumulator already was unhealthy or some probed agent's
entry is an error. -/
theorem foldl_health_overall (agents : List (String × ProbeBehavior)) :
    ∀ rep : HealthReport,
      (agents.foldl healthStep rep).overall_health = "unhealthy" ↔
        (rep.overall_health = "unhealthy" ∨
          ∃ a ∈ agents, (probe_health a.2).status = "error") := by
  induction agents with
  | nil => intro rep; simp
  | cons a t ih =>
      intro rep
      rw [List.foldl_cons, ih, healthStep_overall]
      by_cases herr : (probe_health a.2).status = "error"
      · simp [herr]
      · simp only [herr, if_false, ite_false, List.mem_cons]
        constructor
        · intro h
          rcases h with h | ⟨x, hx, he⟩
          · exact Or.inl h
          · exact Or.inr ⟨x, Or.inr hx, he⟩
        · intro h
          rcases h with h | ⟨x, hx, he⟩
          · exact Or.inl h
          · rcases hx with rfl | hx
            · exact absurd he herr
            · exact Or.inr ⟨x, hx, he⟩

/-- C8: the health check records a `warning` entry with issue
`"Model not loaded"` (the code's phrasing of "resource not ready") for
any component whose `get_model_status` reports `is_loaded=False`; an
`error` entry (with the raised message captured as
`"Exception: <msg>"`) arises exactly when probing raises; and
`overall_health` is `"unhealthy"` if and only if at least one
component's entry is an error — warnings alone never make it
unhealthy. -/
theorem health_check_aggregation (agents : List (String × ProbeBehavior)) :
    (run_health_check agents).agent_health =
      agents.map (fun a => (a.1, probe_health a.2)) ∧
    (∀ pb : ProbeBehavior, pb = ProbeBehavior.statusLoaded false →
      probe_health pb = { status := "warning", issues := ["Model not loaded"] }) ∧
    (∀ pb : ProbeBehavior,
      (probe_health pb).status = "error" ↔ ∃ m, pb = ProbeBehavior.raises m) ∧
    (∀ m : String, probe_health (ProbeBehavior.raises m) =
      { status := "error", issues := ["Exception: " ++ m] }) ∧
    ((run_health_check agents).overall_health = "unhealthy" ↔
      ∃ a ∈ agents, (probe_health a.2).status = "error") := by
  refine ⟨?_, ?_, ?_, fun m => rfl, ?_⟩
  · simpa [run_health_check] using
      foldl_health_agent_health agents
        { overall_health := "healthy", issues := [], warnings := [],
          agent_health := [] }
  · intro pb h
    subst h
    rfl
  · intro pb
    cases pb with
    | statusLoaded b =>
        cases b <;>
          exact ⟨fun h => absurd h (by decide),
            fun h => by obtain ⟨m, hm⟩ := h; cases hm⟩
    | statusNoField =>
        exact ⟨fun h => absurd h (by decide),
          fun h => by obtain ⟨m, hm⟩ := h; cases hm⟩
    | stats msg =>
        cases msg with
        | none =>
            exact ⟨fun h => absurd h (by decide),
              fun h => by obtain ⟨m, hm⟩ := h; cases hm⟩
        | some m0 =>
            exact ⟨fun h => absurd h (by decide : ¬ ("info" = "error")),
              fun h => by obtain ⟨m, hm⟩ := h; cases hm⟩
    | plainAgent =>
        exact ⟨fun h => absurd h (by decide),
          fun h => by obtain ⟨m, hm⟩ := h; cases hm⟩
    | raises m => exact ⟨fun _ => ⟨m, rfl⟩, fun _ => rfl⟩
  · have h := foldl_health_overall agents
      { overall_health := "healthy", issues := [], warnings := [],
        agent_health := [] }
    rw [run_health_check, h]
    simp

/-- C8 (witness): a registry with one component reporting
`is_loaded=False` yields a warning entry and an overall health that is
not `"unhealthy"`. -/
theorem health_check_aggregation_witness :
    probe_health (ProbeBehavior.statusLoaded false) =
      { status := "warning", issues := ["Model not loaded"] } ∧
    ¬ (run_health_check
        [("model_management", ProbeBehavior.statusLoaded false)]).overall_health =
      "unhealthy" := by
  have h := health_check_aggregation
    [("model_management", ProbeBehavior.statusLoaded false)]
  refine ⟨h.2.1 _ rfl, ?_⟩
  intro hu
  obtain ⟨a, ha, herr⟩ := (h.2.2.2.2).mp hu
  simp at ha
  rw [ha] at herr
  exact absurd herr (by decide)

end Prodoc
